import Mathlib

/-!
Verification of the client-side image editor of `ai-mcp-image-generator`.

The definitions below are a shallow embedding of the editing logic of
`src/components/image-generator/image-generator-form.tsx` (current revision):
the fit-to-container computation performed when a generated image loads
(`handleSubmit`), the crop/resize drag handlers (`handleMouseDown`'s inner
`handleMouseMove`), the apply/reset operations of the edit session, and the
gallery bookkeeping (`handleAddToGallery`, `handleFileUpload`, `loadGallery`).
JavaScript numbers are modelled as exact rationals; `Math.round` is modelled
as `roundQ` (round half towards positive infinity, which is what JS does).
-/

/-- JS `Math.round`: round half up, i.e. `⌊x + 1/2⌋`, as a rational. -/
def roundQ (x : ℚ) : ℚ := ((⌊x + 1/2⌋ : ℤ) : ℚ)

/-- The exact (pre-rounding) fit-to-container computation from `handleSubmit`:
`aspectRatio = w/h; newWidth = containerWidth; newHeight = newWidth/aspectRatio;
if newHeight > containerHeight { newHeight = containerHeight; newWidth = newHeight*aspectRatio }`. -/
def fitExact (nw nh cw ch : ℚ) : ℚ × ℚ :=
  let aspectRatio := nw / nh
  let newWidth := cw
  let newHeight := newWidth / aspectRatio
  if newHeight > ch then (ch * aspectRatio, ch) else (newWidth, newHeight)

/-- `fitToContainer`: the displayed dimensions committed by
`setDisplayDimensions({width: Math.round(newWidth), height: Math.round(newHeight)})`. -/
def fitToContainer (nw nh cw ch : ℚ) : ℚ × ℚ :=
  let e := fitExact nw nh cw ch
  (roundQ e.1, roundQ e.2)

/-- The crop rectangle in display coordinates, the fields updated by every
`setCropArea({...initialCrop, displayX, displayY, displayWidth, displayHeight})`. -/
structure CropRegion where
  displayX : ℚ
  displayY : ℚ
  displayWidth : ℚ
  displayHeight : ℚ
deriving DecidableEq

/-- The drag handle hit by `handleMouseDown`: the crop body (`'crop'`, a move)
or one of the four crop corner handles. -/
inductive CropHandle
  | move
  | tl
  | tr
  | bl
  | br
deriving DecidableEq

/-- One pointer-move tick of a crop drag: the inner `handleMouseMove` of
`handleMouseDown`, for `isCropping` with snapshot `init` (`initialCrop`),
pointer delta `(dx, dy)` and current display dimensions `(W, H)`.
Transcribed statement by statement from the source, including the
re-clamping sequence after the `switch`. -/
def cropMove (handle : CropHandle) (init : CropRegion) (dx dy W H : ℚ) : CropRegion :=
  let x1 : ℚ := match handle with
    | .move => max 0 (min (init.displayX + dx) (W - init.displayWidth))
    | .tl => init.displayX + dx
    | .bl => init.displayX + dx
    | _ => init.displayX
  let y1 : ℚ := match handle with
    | .move => max 0 (min (init.displayY + dy) (H - init.displayHeight))
    | .tl => init.displayY + dy
    | .tr => init.displayY + dy
    | _ => init.displayY
  let w1 : ℚ := match handle with
    | .tl => init.displayWidth - dx
    | .bl => init.displayWidth - dx
    | .tr => init.displayWidth + dx
    | .br => init.displayWidth + dx
    | .move => init.displayWidth
  let h1 : ℚ := match handle with
    | .tl => init.displayHeight - dy
    | .tr => init.displayHeight - dy
    | .bl => init.displayHeight + dy
    | .br => init.displayHeight + dy
    | .move => init.displayHeight
  let x2 := max 0 x1
  let y2 := max 0 y1
  let x3 := if (handle = .tl ∨ handle = .bl) ∧
               init.displayX + init.displayWidth < x2 + max 20 w1
            then (init.displayX + init.displayWidth) - max 20 w1 else x2
  let y3 := if (handle = .tl ∨ handle = .tr) ∧
               init.displayY + init.displayHeight < y2 + max 20 h1
            then (init.displayY + init.displayHeight) - max 20 h1 else y2
  let w2 := max 20 (min w1 (W - x3))
  let h2 := max 20 (min h1 (H - y3))
  let x4 := if handle = .tl ∨ handle = .bl
            then (init.displayX + init.displayWidth) - w2 else x3
  let y4 := if handle = .tl ∨ handle = .tr
            then (init.displayY + init.displayHeight) - h2 else y3
  let x5 := max 0 (min x4 (W - w2))
  let y5 := max 0 (min y4 (H - h2))
  ⟨x5, y5, w2, h2⟩

/-- A whole drag session on one handle: the snapshot `init` is captured at
mouse-down, and every pointer-move recomputes the rectangle from that
snapshot (not cumulatively), so the committed region is the result of the
last move. -/
def dragCrop (handle : CropHandle) (init : CropRegion) (W H : ℚ)
    (events : List (ℚ × ℚ)) : CropRegion :=
  events.foldl (fun _ e => cropMove handle init e.1 e.2 W H) init

/-- The clamping invariant the spec asserts for `CropRegion`. -/
def CropInvariant (c : CropRegion) (W H : ℚ) : Prop :=
  0 ≤ c.displayX ∧ 0 ≤ c.displayY ∧
  c.displayX + c.displayWidth ≤ W ∧ c.displayY + c.displayHeight ≤ H ∧
  20 ≤ c.displayWidth ∧ 20 ≤ c.displayHeight

/-- One pointer-move tick of the image `resize` handle drag (the `isResizing`
branch of `handleMouseMove`): `newWidth = initialResizeDims.width + dx`,
clamped to `[50, containerWidth]`, height recomputed from the original aspect
ratio, rescaled if it exceeds the container height, then both floored at 50
and rounded. Returns the committed `displayDimensions`. -/
def resizeMove (origW origH initW cw ch dx : ℚ) : ℚ × ℚ :=
  let aspectRatio := origW / origH
  let w1 := max 50 (min (initW + dx) cw)
  let h1 := w1 / aspectRatio
  let h2 := if h1 > ch then ch else h1
  let w2 := if h1 > ch then ch * aspectRatio else w1
  let h3 := max 50 h2
  let w3 := max 50 w2
  (roundQ w3, roundQ h3)

/-- The default crop region chosen by `startCrop`: half the display size,
centred in the display area. -/
def startCropRegion (dispW dispH : ℚ) : CropRegion :=
  let initialCropWidth := dispW / 2
  let initialCropHeight := dispH / 2
  let initialCropX := (dispW - initialCropWidth) / 2
  let initialCropY := (dispH - initialCropHeight) / 2
  ⟨initialCropX, initialCropY, initialCropWidth, initialCropHeight⟩

/-- The display→natural conversion performed at the top of `handleApplyCrop`:
independent x/y ratios `naturalWidth/displayWidth` and
`naturalHeight/displayHeight` applied to the crop rectangle. -/
def toNaturalRect (c : CropRegion) (naturalW naturalH dispW dispH : ℚ) :
    ℚ × ℚ × ℚ × ℚ :=
  let displayToNaturalRatioX := naturalW / dispW
  let displayToNaturalRatioY := naturalH / dispH
  (c.displayX * displayToNaturalRatioX,
   c.displayY * displayToNaturalRatioY,
   c.displayWidth * displayToNaturalRatioX,
   c.displayHeight * displayToNaturalRatioY)

/-- An image raster: an opaque content identifier plus its natural pixel
dimensions. The canvas render engine is modelled as dimension bookkeeping on
an opaque content. -/
structure Raster where
  data : ℕ
  width : ℚ
  height : ℚ
deriving DecidableEq

/-- The user-visible error kinds raised (as destructive toasts) by the edit
session handlers. -/
inductive EditError
  | invalidDimensions
  | invalidCropArea
  | resetFailed
deriving DecidableEq

/-- The component state touched by the edit-session handlers. -/
structure EditState where
  currentDisplayUrl : Option Raster
  generatedImageBlobUrl : Option Raster
  originalImageDimensions : Option (ℚ × ℚ)
  displayDimensions : ℚ × ℚ
  isCropping : Bool
  cropArea : Option CropRegion
  isResizing : Bool
  resizeHandle : Option (ℚ × ℚ × ℚ × ℚ)
deriving DecidableEq

/-- The display recomputation every handler performs after changing the
natural dimensions: fit into the preview container when the container ref is
live, otherwise use the natural size directly. -/
def recomputeDisplay (container : Option (ℚ × ℚ)) (nw nh : ℚ) : ℚ × ℚ :=
  match container with
  | some (cw, ch) => fitToContainer nw nh cw ch
  | none => (nw, nh)

/-- `handleApplyResize(newWidth, newHeight)`: silently returns unless a
current image and original dimensions exist; rejects non-positive target
dimensions with an `Invalid Dimensions` toast and no state change; otherwise
re-rasters to `newWidth × newHeight`, updates the natural dimensions,
recomputes the display fit and leaves resize mode. -/
def handleApplyResize (container : Option (ℚ × ℚ)) (s : EditState)
    (newWidth newHeight : ℚ) : EditState × Option EditError :=
  match s.currentDisplayUrl, s.originalImageDimensions with
  | some cur, some _ =>
    if newWidth ≤ 0 ∨ newHeight ≤ 0 then (s, some .invalidDimensions)
    else
      ({ s with
          currentDisplayUrl := some ⟨cur.data, newWidth, newHeight⟩,
          originalImageDimensions := some (newWidth, newHeight),
          displayDimensions := recomputeDisplay container newWidth newHeight,
          isResizing := false,
          resizeHandle := none }, none)
  | _, _ => (s, none)

/-- `handleApplyCrop()`: silently returns unless a current image, a crop area
and original dimensions exist; converts the crop rectangle to natural space
with the image's natural dimensions `nat`; rejects a non-positive natural
width/height with an `Invalid Crop Area` toast and no state change; otherwise
re-rasters to the natural crop size, updates the natural dimensions,
recomputes the display fit and leaves crop mode. -/
def handleApplyCrop (container : Option (ℚ × ℚ)) (nat : ℚ × ℚ) (s : EditState) :
    EditState × Option EditError :=
  match s.currentDisplayUrl, s.cropArea, s.originalImageDimensions with
  | some cur, some crop, some _ =>
    let displayToNaturalRatioX := nat.1 / s.displayDimensions.1
    let displayToNaturalRatioY := nat.2 / s.displayDimensions.2
    let naturalCropWidth := crop.displayWidth * displayToNaturalRatioX
    let naturalCropHeight := crop.displayHeight * displayToNaturalRatioY
    if naturalCropWidth ≤ 0 ∨ naturalCropHeight ≤ 0 then (s, some .invalidCropArea)
    else
      ({ s with
          currentDisplayUrl := some ⟨cur.data, naturalCropWidth, naturalCropHeight⟩,
          originalImageDimensions := some (naturalCropWidth, naturalCropHeight),
          displayDimensions := recomputeDisplay container naturalCropWidth naturalCropHeight,
          isCropping := false,
          cropArea := none }, none)
  | _, _, _ => (s, none)

/-- `startCrop()`: requires a loaded image; enters crop mode, leaves resize
mode, and installs the default centred crop region. -/
def startCrop (s : EditState) : EditState :=
  match s.originalImageDimensions with
  | some _ =>
    { s with
        isCropping := true,
        isResizing := false,
        resizeHandle := none,
        cropArea := some (startCropRegion s.displayDimensions.1 s.displayDimensions.2) }
  | none => s

/-- `handleResetEdits()`: when an original generated image exists, restores it
as the current image; when its natural dimensions are readable, also restores
the natural dimensions, recomputes the display fit and clears both modes and
their pending rectangles (otherwise an error toast is raised). -/
def handleResetEdits (container : Option (ℚ × ℚ)) (s : EditState) :
    EditState × Option EditError :=
  match s.generatedImageBlobUrl with
  | some orig =>
    if orig.width ≠ 0 ∧ orig.height ≠ 0 then
      ({ s with
          currentDisplayUrl := some orig,
          originalImageDimensions := some (orig.width, orig.height),
          displayDimensions := recomputeDisplay container orig.width orig.height,
          isCropping := false,
          cropArea := none,
          isResizing := false,
          resizeHandle := none }, none)
    else
      ({ s with currentDisplayUrl := some orig }, some .resetFailed)
  | none => (s, none)

/-- `MAX_GALLERY_IMAGES`. -/
def MAX_GALLERY_IMAGES : ℕ := 20

/-- The observable outcome of one add-to-gallery interaction: the new visible
gallery, the new localStorage list, and which effects happened. -/
structure GalleryOutcome where
  gallery : List ℕ
  localStore : List ℕ
  remoteEntryCreated : Bool
  localFallbackInvoked : Bool
  errorSurfaced : Bool
deriving DecidableEq

/-- `handleAddToGallery()`: rejects when the gallery is full; with a
configured database it uploads (`uploadImageToBackend`, `none` = upload
failed, surfaced as a destructive toast) and then saves
(`saveImageToDb`, `none` = not persisted, surfaced as a destructive toast) —
on success the entry is prepended and the list sliced to
`MAX_GALLERY_IMAGES`; with no configured database the image is written to
localStorage and prepended locally, both sliced to `MAX_GALLERY_IMAGES`. -/
def handleAddToGallery (dbConfigured : Bool) (uploadResult : Option ℕ)
    (saveResult : Option ℕ) (gallery localStore : List ℕ) (image : ℕ) :
    GalleryOutcome :=
  if 0 < MAX_GALLERY_IMAGES ∧ MAX_GALLERY_IMAGES ≤ gallery.length then
    ⟨gallery, localStore, false, false, true⟩
  else if dbConfigured then
    match uploadResult with
    | none => ⟨gallery, localStore, false, false, true⟩
    | some _ =>
      match saveResult with
      | none => ⟨gallery, localStore, false, false, true⟩
      | some entry =>
        ⟨(entry :: gallery).take MAX_GALLERY_IMAGES, localStore, true, false, false⟩
  else
    ⟨(image :: gallery).take MAX_GALLERY_IMAGES,
     (image :: localStore).take MAX_GALLERY_IMAGES, false, true, false⟩

/-- `handleFileUpload(file)`: same shape as `handleAddToGallery` — full-gallery
guard first, then either the upload + DB-save path or the localStorage path,
each slicing the updated lists to `MAX_GALLERY_IMAGES`. -/
def handleFileUpload (dbConfigured : Bool) (uploadResult : Option ℕ)
    (saveResult : Option ℕ) (gallery localStore : List ℕ) (file : ℕ) :
    GalleryOutcome :=
  if 0 < MAX_GALLERY_IMAGES ∧ MAX_GALLERY_IMAGES ≤ gallery.length then
    ⟨gallery, localStore, false, false, true⟩
  else if dbConfigured then
    match uploadResult with
    | none => ⟨gallery, localStore, false, false, true⟩
    | some _ =>
      match saveResult with
      | none => ⟨gallery, localStore, false, false, true⟩
      | some entry =>
        ⟨(entry :: gallery).take MAX_GALLERY_IMAGES, localStore, true, false, false⟩
  else
    ⟨(file :: gallery).take MAX_GALLERY_IMAGES,
     (file :: localStore).take MAX_GALLERY_IMAGES, false, true, false⟩

/-- `loadGallery()`: the list read from the database or localStorage is shown
as `imagesToDisplay.slice(0, MAX_GALLERY_IMAGES)`. -/
def loadGallery (stored : List ℕ) : List ℕ := stored.take MAX_GALLERY_IMAGES

/-- Events of the generation lifecycle as they reach the component: a user
submit (which runs `resetImageStates()` before awaiting the webhook), the
completion callback of a generation request, and a session reset. The
generation id is trace bookkeeping only — the code itself carries no
counterpart of it. -/
inductive GenEvent
  | startGeneration (genId : ℕ)
  | generationComplete (genId : ℕ) (image : ℕ)
  | resetSession
deriving DecidableEq

/-- The slice of component state the generation lifecycle touches, plus the
ghost field `latestGen` recording the most recently started generation. -/
structure GenSession where
  current : Option ℕ
  original : Option ℕ
  latestGen : ℕ
deriving DecidableEq

/-- The event-loop step: `handleSubmit` starts by clearing the image state;
the completion continuation of `generateImage` installs the blob as both the
original and the current image unconditionally — it consults no counter or
token before doing so. -/
def genStep (s : GenSession) (e : GenEvent) : GenSession :=
  match e with
  | .startGeneration id => ⟨none, none, id⟩
  | .generationComplete _ image => { s with current := some image, original := some image }
  | .resetSession => { s with current := none, original := none }

/-- A whole interleaving of generation events. -/
def genRun (events : List GenEvent) : GenSession :=
  events.foldl genStep ⟨none, none, 0⟩

-- ======================================================================
-- Theorems
-- ======================================================================

theorem floor_intCast_add_half (n : ℤ) : ⌊(n : ℚ) + 1/2⌋ = n := by
  rw [Int.floor_eq_iff]
  constructor
  · linarith
  · linarith

theorem roundQ_intCast (n : ℤ) : roundQ (n : ℚ) = n := by
  unfold roundQ
  rw [floor_intCast_add_half]

theorem roundQ_nonneg {x : ℚ} (hx : 0 ≤ x) : 0 ≤ roundQ x := by
  unfold roundQ
  have : (0 : ℤ) ≤ ⌊x + 1/2⌋ := by
    rw [Int.le_floor]
    push_cast
    linarith
  exact_mod_cast this

theorem roundQ_le_intCast {x : ℚ} {n : ℤ} (h : x ≤ n) : roundQ x ≤ n := by
  unfold roundQ
  have : ⌊x + 1/2⌋ ≤ n := by
    have h1 : ⌊x + 1/2⌋ ≤ ⌊(n : ℚ) + 1/2⌋ := Int.floor_le_floor (by linarith)
    rw [floor_intCast_add_half] at h1
    exact h1
  exact_mod_cast this

theorem intCast_le_roundQ {x : ℚ} {n : ℤ} (h : (n : ℚ) ≤ x) : (n : ℚ) ≤ roundQ x := by
  unfold roundQ
  have : n ≤ ⌊x + 1/2⌋ := by
    rw [Int.le_floor]
    linarith
  exact_mod_cast this

theorem abs_roundQ_sub (x : ℚ) : |roundQ x - x| ≤ 1/2 := by
  unfold roundQ
  have h1 : (⌊x + 1/2⌋ : ℚ) ≤ x + 1/2 := Int.floor_le _
  have h2 : x + 1/2 - 1 < (⌊x + 1/2⌋ : ℚ) := Int.sub_one_lt_floor _
  rw [abs_le]
  constructor <;> linarith

/-- For the `crop-br` handle the switch leaves `newDisplayX`/`newDisplayY`
untouched and none of the tl/bl/tr adjustment blocks fire, so a pointer-move
reduces to the closed form below. -/
theorem cropMove_br_eq (init : CropRegion) (dx dy W H : ℚ) :
    cropMove .br init dx dy W H =
      ⟨max 0 (min (max 0 init.displayX)
          (W - max 20 (min (init.displayWidth + dx) (W - max 0 init.displayX)))),
       max 0 (min (max 0 init.displayY)
          (H - max 20 (min (init.displayHeight + dy) (H - max 0 init.displayY)))),
       max 20 (min (init.displayWidth + dx) (W - max 0 init.displayX)),
       max 20 (min (init.displayHeight + dy) (H - max 0 init.displayY))⟩ := by
  simp [cropMove]

theorem cropMove_br_top_left (init : CropRegion) (dx dy W H : ℚ)
    (hx : 0 ≤ init.displayX) (hy : 0 ≤ init.displayY)
    (hw : 20 ≤ init.displayWidth) (hh : 20 ≤ init.displayHeight)
    (hxw : init.displayX + init.displayWidth ≤ W)
    (hyh : init.displayY + init.displayHeight ≤ H) :
    (cropMove .br init dx dy W H).displayX = init.displayX ∧
    (cropMove .br init dx dy W H).displayY = init.displayY := by
  rw [cropMove_br_eq, max_eq_right hx, max_eq_right hy]
  have hwW : max 20 (min (init.displayWidth + dx) (W - init.displayX)) ≤
      W - init.displayX :=
    max_le (by linarith) (min_le_right _ _)
  have hhH : max 20 (min (init.displayHeight + dy) (H - init.displayY)) ≤
      H - init.displayY :=
    max_le (by linarith) (min_le_right _ _)
  constructor
  · show max 0 (min init.displayX _) = init.displayX
    rw [min_eq_left (by linarith), max_eq_right hx]
  · show max 0 (min init.displayY _) = init.displayY
    rw [min_eq_left (by linarith), max_eq_right hy]

/-- C3: for any sequence of pointer-move events during a drag of the
`crop-bottom-right` handle, starting from a `CropRegion` satisfying the
clamping invariant, the top-left corner `(displayX, displayY)` of the crop
region is unchanged before and after the drag. -/
theorem crop_br_drag_pins_top_left (init : CropRegion) (W H : ℚ)
    (events : List (ℚ × ℚ)) (hinv : CropInvariant init W H) :
    (dragCrop .br init W H events).displayX = init.displayX ∧
    (dragCrop .br init W H events).displayY = init.displayY := by
  obtain ⟨hx, hy, hxw, hyh, hw, hh⟩ := hinv
  unfold dragCrop
  suffices h : ∀ acc : CropRegion,
      acc.displayX = init.displayX → acc.displayY = init.displayY →
      (events.foldl (fun _ e => cropMove .br init e.1 e.2 W H) acc).displayX =
        init.displayX ∧
      (events.foldl (fun _ e => cropMove .br init e.1 e.2 W H) acc).displayY =
        init.displayY by
    exact h init rfl rfl
  induction events with
  | nil =>
    intro acc h1 h2
    exact ⟨h1, h2⟩
  | cons e es ih =>
    intro acc _ _
    simp only [List.foldl_cons]
    exact ih (cropMove .br init e.1 e.2 W H)
      (cropMove_br_top_left init e.1 e.2 W H hx hy hw hh hxw hyh).1
      (cropMove_br_top_left init e.1 e.2 W H hx hy hw hh hxw hyh).2

/-- Witness for C3: a concrete two-move bottom-right drag of the default
300×300 region in a 600×600 display leaves the top-left corner at (150,150). -/
theorem crop_br_drag_pins_top_left_witness :
    CropInvariant ⟨150, 150, 300, 300⟩ 600 600 ∧
    (dragCrop .br ⟨150, 150, 300, 300⟩ 600 600 [(40, -20), (10, 5)]).displayX = 150 ∧
    (dragCrop .br ⟨150, 150, 300, 300⟩ 600 600 [(40, -20), (10, 5)]).displayY = 150 :=
  ⟨by norm_num [CropInvariant],
   crop_br_drag_pins_top_left ⟨150, 150, 300, 300⟩ 600 600 [(40, -20), (10, 5)]
     (by norm_num [CropInvariant])⟩

/-- C4 (code bug): one pointer-move of the `crop-tl` handle with `dx = -1000`
from the default region of a 600×600 display yields the crop rectangle
`{x: 0, y: 150, width: 1300, height: 300}`, whose right edge (`x + width =
1300`) lies far outside the display bounds — the clamp
`newDisplayWidth ≤ displayWidth - newDisplayX` is computed against a
`newDisplayX` that the pinned-corner adjustment subsequently overwrites, so
the committed rectangle violates `x + width ≤ displayWidth`. -/
theorem crop_tl_drag_escapes_display_bounds :
    cropMove .tl ⟨150, 150, 300, 300⟩ (-1000) 0 600 600 = ⟨0, 150, 1300, 300⟩ ∧
    ¬ CropInvariant (cropMove .tl ⟨150, 150, 300, 300⟩ (-1000) 0 600 600) 600 600 := by
  constructor
  · norm_num [cropMove]
  · intro hinv
    rw [show cropMove .tl ⟨150, 150, 300, 300⟩ (-1000) 0 600 600 =
        ⟨0, 150, 1300, 300⟩ by norm_num [cropMove]] at hinv
    obtain ⟨-, -, hxw, -, -, -⟩ := hinv
    norm_num at hxw

theorem roundQ_natCast (n : ℕ) : roundQ (n : ℚ) = n := by
  have := roundQ_intCast (n : ℤ)
  push_cast at this
  exact this

theorem roundQ_le_natCast {x : ℚ} {n : ℕ} (h : x ≤ n) : roundQ x ≤ n := by
  have := roundQ_le_intCast (n := (n : ℤ)) (by exact_mod_cast h)
  exact_mod_cast this

theorem natCast_le_roundQ {x : ℚ} {n : ℕ} (h : (n : ℚ) ≤ x) : (n : ℚ) ≤ roundQ x := by
  have := intCast_le_roundQ (n := (n : ℤ)) (by exact_mod_cast h)
  exact_mod_cast this

/-- C1 (counterexample): a 1×1500 image fitted into an 800×600 container is
height-bound, and its exact display width `600 * (1/1500) = 0.4` rounds to 0 —
so `fitToContainer` does return a zero dimension, and the claimed lower bound
`width ≥ 1` fails for positive inputs. -/
theorem fitToContainer_zero_width :
    fitToContainer 1 1500 800 600 = (0, 600) ∧
    ¬ (1 ≤ (fitToContainer 1 1500 800 600).1) := by
  have h : fitToContainer 1 1500 800 600 = (0, 600) := by
    norm_num [fitToContainer, fitExact, roundQ, Int.floor_eq_iff]
  refine ⟨h, ?_⟩
  rw [h]
  norm_num

/-- C1 (amended): for positive integer natural and container dimensions, the
pre-rounding fit preserves the width/height ratio exactly, rounding moves
each returned value by at most half a pixel from it, and both returned values
are nonnegative and at most their container bound. (They are not always
`≥ 1`: extreme aspect ratios can round a dimension down to 0.) -/
theorem fitToContainer_fits (nw nh cw ch : ℕ)
    (hnw : 0 < nw) (hnh : 0 < nh) (hcw : 0 < cw) (hch : 0 < ch) :
    (fitExact nw nh cw ch).1 * nh = (fitExact nw nh cw ch).2 * nw ∧
    |(fitToContainer nw nh cw ch).1 - (fitExact nw nh cw ch).1| ≤ 1/2 ∧
    |(fitToContainer nw nh cw ch).2 - (fitExact nw nh cw ch).2| ≤ 1/2 ∧
    0 ≤ (fitToContainer nw nh cw ch).1 ∧ 0 ≤ (fitToContainer nw nh cw ch).2 ∧
    (fitToContainer nw nh cw ch).1 ≤ cw ∧ (fitToContainer nw nh cw ch).2 ≤ ch := by
  have hnw' : (0:ℚ) < nw := by exact_mod_cast hnw
  have hnh' : (0:ℚ) < nh := by exact_mod_cast hnh
  have hcw' : (0:ℚ) < cw := by exact_mod_cast hcw
  have hch' : (0:ℚ) < ch := by exact_mod_cast hch
  have har : (0:ℚ) < (nw:ℚ) / (nh:ℚ) := div_pos hnw' hnh'
  unfold fitToContainer fitExact
  by_cases hb : (ch:ℚ) < (cw:ℚ) / ((nw:ℚ) / (nh:ℚ))
  · simp only [gt_iff_lt, if_pos hb]
    refine ⟨?_, abs_roundQ_sub _, abs_roundQ_sub _, ?_, ?_, ?_, ?_⟩
    · field_simp
    · exact roundQ_nonneg (by positivity)
    · exact roundQ_nonneg (by positivity)
    · have hlt : (ch:ℚ) * ((nw:ℚ) / (nh:ℚ)) < cw := by
        rw [lt_div_iff₀ har] at hb
        linarith
      exact roundQ_le_natCast (le_of_lt hlt)
    · rw [roundQ_natCast]
  · simp only [gt_iff_lt, if_neg hb]
    push_neg at hb
    refine ⟨?_, abs_roundQ_sub _, abs_roundQ_sub _, ?_, ?_, ?_, ?_⟩
    · field_simp
    · exact roundQ_nonneg (by positivity)
    · exact roundQ_nonneg (by positivity)
    · rw [roundQ_natCast]
    · exact roundQ_le_natCast hb

/-- Witness for C1 (amended): instantiated at a 512×512 image and an 800×600
container. -/
theorem fitToContainer_fits_witness :
    0 < (512:ℕ) ∧
    (fitToContainer ((512:ℕ):ℚ) ((512:ℕ):ℚ) ((800:ℕ):ℚ) ((600:ℕ):ℚ)).1 ≤ ((800:ℕ):ℚ) :=
  ⟨by norm_num,
   (fitToContainer_fits 512 512 800 600 (by norm_num) (by norm_num) (by norm_num)
     (by norm_num)).2.2.2.2.2.1⟩

/-- C2: a 512×512 image fitted into an 800×600 container displays at 600×600;
`startCrop` installs the default region `{x:150, y:150, width:300, height:300}`;
applying the crop with no drag converts it to the natural rectangle
`{x:128, y:128, width:256, height:256}` and the resulting raster is 256×256. -/
theorem scenario_512_fit_crop_apply :
    fitToContainer 512 512 800 600 = (600, 600) ∧
    startCropRegion 600 600 = ⟨150, 150, 300, 300⟩ ∧
    toNaturalRect ⟨150, 150, 300, 300⟩ 512 512 600 600 = (128, 128, 256, 256) ∧
    (startCrop
      { currentDisplayUrl := some ⟨0, 512, 512⟩,
        generatedImageBlobUrl := some ⟨0, 512, 512⟩,
        originalImageDimensions := some (512, 512),
        displayDimensions := (600, 600),
        isCropping := false, cropArea := none,
        isResizing := false, resizeHandle := none }).cropArea =
      some ⟨150, 150, 300, 300⟩ ∧
    (handleApplyCrop (some (800, 600)) (512, 512)
      (startCrop
        { currentDisplayUrl := some ⟨0, 512, 512⟩,
          generatedImageBlobUrl := some ⟨0, 512, 512⟩,
          originalImageDimensions := some (512, 512),
          displayDimensions := (600, 600),
          isCropping := false, cropArea := none,
          isResizing := false, resizeHandle := none })).1.currentDisplayUrl =
      some ⟨0, 256, 256⟩ ∧
    (handleApplyCrop (some (800, 600)) (512, 512)
      (startCrop
        { currentDisplayUrl := some ⟨0, 512, 512⟩,
          generatedImageBlobUrl := some ⟨0, 512, 512⟩,
          originalImageDimensions := some (512, 512),
          displayDimensions := (600, 600),
          isCropping := false, cropArea := none,
          isResizing := false, resizeHandle := none })).1.originalImageDimensions =
      some ((256 : ℚ), (256 : ℚ)) := by
  refine ⟨?_, ?_, ?_, ?_, ?_, ?_⟩
  · norm_num [fitToContainer, fitExact, roundQ, Int.floor_eq_iff]
  · norm_num [startCropRegion]
  · norm_num [toNaturalRect]
  · norm_num [startCrop, startCropRegion]
  · norm_num [startCrop, startCropRegion, handleApplyCrop]
  · norm_num [startCrop, startCropRegion, handleApplyCrop]


theorem roundQ_mono {x y : ℚ} (h : x ≤ y) : roundQ x ≤ roundQ y := by
  unfold roundQ
  have : ⌊x + 1/2⌋ ≤ ⌊y + 1/2⌋ := Int.floor_le_floor (by linarith)
  exact_mod_cast this

theorem roundQ_fifty : roundQ 50 = 50 := by
  norm_num [roundQ, Int.floor_eq_iff]

/-- C5 (counterexample): with a 40×40 preview container the 50px floor is
applied after the container clamp, so a resize-handle move commits 50×50 —
the committed width exceeds the container width, contradicting the claim
that the container clamp and the 50px floor both hold for every container. -/
theorem resizeMove_exceeds_small_container :
    resizeMove 100 100 100 40 40 0 = (50, 50) ∧
    ¬ ((resizeMove 100 100 100 40 40 0).1 ≤ 40) := by
  have h : resizeMove 100 100 100 40 40 0 = (50, 50) := by
    norm_num [resizeMove, roundQ, Int.floor_eq_iff]
  refine ⟨h, ?_⟩
  rw [h]
  norm_num

/-- C5 (amended): for a positive original aspect ratio and an integer
container of at least 50×50, every resize-handle pointer-move commits
display dimensions with `50 ≤ width ≤ containerWidth` and
`50 ≤ height ≤ containerHeight` (the width is the drag-start width plus `dx`
clamped to `[50, containerWidth]`, the height recomputed from the aspect
ratio and clamped to the container height; for containers smaller than 50px
the 50px floor wins over the container clamp). -/
theorem resizeMove_bounds (origW origH initW dx : ℚ) (cw ch : ℕ)
    (hW : 0 < origW) (hH : 0 < origH) (hcw : 50 ≤ cw) (hch : 50 ≤ ch) :
    50 ≤ (resizeMove origW origH initW cw ch dx).1 ∧
    (resizeMove origW origH initW cw ch dx).1 ≤ cw ∧
    50 ≤ (resizeMove origW origH initW cw ch dx).2 ∧
    (resizeMove origW origH initW cw ch dx).2 ≤ ch := by
  have hcw' : (50:ℚ) ≤ (cw:ℚ) := by exact_mod_cast hcw
  have hch' : (50:ℚ) ≤ (ch:ℚ) := by exact_mod_cast hch
  have har : (0:ℚ) < origW / origH := div_pos hW hH
  have h50w1 : (50:ℚ) ≤ max 50 (min (initW + dx) (cw:ℚ)) := le_max_left _ _
  have hw1cw : max 50 (min (initW + dx) (cw:ℚ)) ≤ cw :=
    max_le hcw' (min_le_right _ _)
  simp only [resizeMove, gt_iff_lt]
  split_ifs with hb
  · have hlt : (ch:ℚ) * (origW / origH) < max 50 (min (initW + dx) (cw:ℚ)) := by
      rw [lt_div_iff₀ har] at hb
      linarith
    refine ⟨?_, ?_, ?_, ?_⟩
    · exact le_of_eq_of_le roundQ_fifty.symm (roundQ_mono (le_max_left _ _))
    · exact le_of_le_of_eq (roundQ_mono (max_le hcw' (by linarith)))
        (roundQ_natCast cw)
    · exact le_of_eq_of_le roundQ_fifty.symm (roundQ_mono (le_max_left _ _))
    · exact le_of_le_of_eq (roundQ_mono (max_le hch' le_rfl)) (roundQ_natCast ch)
  · push_neg at hb
    refine ⟨?_, ?_, ?_, ?_⟩
    · exact le_of_eq_of_le roundQ_fifty.symm (roundQ_mono (le_max_left _ _))
    · exact le_of_le_of_eq (roundQ_mono (max_le hcw' hw1cw)) (roundQ_natCast cw)
    · exact le_of_eq_of_le roundQ_fifty.symm (roundQ_mono (le_max_left _ _))
    · exact le_of_le_of_eq (roundQ_mono (max_le hch' hb)) (roundQ_natCast ch)

/-- Witness for C5 (amended): a drag of `dx = 120` from start width 300 in an
800×600 container with a 512×512 original. -/
theorem resizeMove_bounds_witness :
    (0:ℚ) < 512 ∧
    50 ≤ (resizeMove 512 512 300 ((800:ℕ):ℚ) ((600:ℕ):ℚ) 120).1 :=
  ⟨by norm_num,
   (resizeMove_bounds 512 512 300 120 800 600 (by norm_num) (by norm_num)
     (by norm_num) (by norm_num)).1⟩

/-- C6: applying a resize with a non-positive target dimension fails with the
`Invalid Dimensions` error and leaves the whole session state — current
image, dimensions, active mode — exactly unchanged, regardless of any pending
crop region; and applying a crop whose natural-space width or height is
non-positive fails with the `Invalid Crop Area` error, likewise leaving the
state exactly unchanged. -/
theorem apply_invalid_leaves_state_unchanged (container : Option (ℚ × ℚ))
    (s : EditState) (nat : ℚ × ℚ) (newWidth newHeight : ℚ) :
    (∀ cur : Raster, ∀ dims : ℚ × ℚ,
      s.currentDisplayUrl = some cur →
      s.originalImageDimensions = some dims →
      newWidth ≤ 0 ∨ newHeight ≤ 0 →
      handleApplyResize container s newWidth newHeight =
        (s, some .invalidDimensions)) ∧
    (∀ cur : Raster, ∀ crop : CropRegion, ∀ dims : ℚ × ℚ,
      s.currentDisplayUrl = some cur →
      s.cropArea = some crop →
      s.originalImageDimensions = some dims →
      crop.displayWidth * (nat.1 / s.displayDimensions.1) ≤ 0 ∨
        crop.displayHeight * (nat.2 / s.displayDimensions.2) ≤ 0 →
      handleApplyCrop container nat s = (s, some .invalidCropArea)) := by
  obtain ⟨c1, c2, c3, c4, c5, c6, c7, c8⟩ := s
  constructor
  · intro cur dims hc ho hwh
    dsimp only at hc ho
    subst hc
    subst ho
    simp only [handleApplyResize]
    rw [if_pos hwh]
  · intro cur crop dims hc hcr ho hn
    dsimp only at hc hcr ho hn
    subst hc
    subst hcr
    subst ho
    simp only [handleApplyCrop]
    rw [if_pos hn]

/-- Witness for C6: `applyResize(0, 100)` on a session in resize mode with no
crop pending (the claim's own scenario), and an apply-crop on a session in
crop mode with the default region whose natural width reads as 0. -/
theorem apply_invalid_leaves_state_unchanged_witness :
    ((0:ℚ) ≤ 0 ∨ (100:ℚ) ≤ 0) ∧
    handleApplyResize (some (800, 600))
      { currentDisplayUrl := some ⟨0, 512, 512⟩,
        generatedImageBlobUrl := some ⟨0, 512, 512⟩,
        originalImageDimensions := some (512, 512),
        displayDimensions := (600, 600),
        isCropping := false, cropArea := none,
        isResizing := true, resizeHandle := some (590, 590, 600, 600) } 0 100 =
      ({ currentDisplayUrl := some ⟨0, 512, 512⟩,
         generatedImageBlobUrl := some ⟨0, 512, 512⟩,
         originalImageDimensions := some (512, 512),
         displayDimensions := (600, 600),
         isCropping := false, cropArea := none,
         isResizing := true, resizeHandle := some (590, 590, 600, 600) },
       some .invalidDimensions) ∧
    handleApplyCrop (some (800, 600)) (0, 512)
      { currentDisplayUrl := some ⟨0, 512, 512⟩,
        generatedImageBlobUrl := some ⟨0, 512, 512⟩,
        originalImageDimensions := some (512, 512),
        displayDimensions := (600, 600),
        isCropping := true, cropArea := some ⟨150, 150, 300, 300⟩,
        isResizing := false, resizeHandle := none } =
      ({ currentDisplayUrl := some ⟨0, 512, 512⟩,
         generatedImageBlobUrl := some ⟨0, 512, 512⟩,
         originalImageDimensions := some (512, 512),
         displayDimensions := (600, 600),
         isCropping := true, cropArea := some ⟨150, 150, 300, 300⟩,
         isResizing := false, resizeHandle := none }, some .invalidCropArea) := by
  refine ⟨Or.inl le_rfl, ?_, ?_⟩
  · exact (apply_invalid_leaves_state_unchanged (some (800, 600)) _ (0, 512) 0 100).1
      ⟨0, 512, 512⟩ (512, 512) rfl rfl (Or.inl le_rfl)
  · exact (apply_invalid_leaves_state_unchanged (some (800, 600)) _ (0, 512) 0 100).2
      ⟨0, 512, 512⟩ ⟨150, 150, 300, 300⟩ (512, 512) rfl rfl rfl
      (Or.inl (by norm_num))

/-- C7: whenever an original generated image exists (with readable natural
dimensions), `handleResetEdits` restores it as the current image and clears
both edit modes and their pending rectangles, and calling it twice in a row
is idempotent — both calls leave the very same original raster as `current`. -/
theorem resetEdits_restores_and_idempotent (container : Option (ℚ × ℚ))
    (s : EditState) (orig : Raster)
    (h : s.generatedImageBlobUrl = some orig)
    (hw : orig.width ≠ 0) (hh : orig.height ≠ 0) :
    (handleResetEdits container s).1.currentDisplayUrl = some orig ∧
    (handleResetEdits container s).1.isCropping = false ∧
    (handleResetEdits container s).1.cropArea = none ∧
    (handleResetEdits container s).1.isResizing = false ∧
    (handleResetEdits container s).1.resizeHandle = none ∧
    handleResetEdits container (handleResetEdits container s).1 =
      ((handleResetEdits container s).1, none) ∧
    (handleResetEdits container (handleResetEdits container s).1).1.currentDisplayUrl =
      some orig := by
  obtain ⟨c1, c2, c3, c4, c5, c6, c7, c8⟩ := s
  dsimp only at h
  subst h
  simp only [handleResetEdits]
  rw [if_pos (And.intro hw hh)]
  refine ⟨rfl, rfl, rfl, rfl, rfl, ?_, ?_⟩
  · simp only [handleResetEdits]
    rw [if_pos (And.intro hw hh)]
  · simp only [handleResetEdits]
    rw [if_pos (And.intro hw hh)]

/-- Witness for C7: reset on a concrete session whose current image is an
edited 256×256 crop of a 512×512 generated original. -/
theorem resetEdits_restores_and_idempotent_witness :
    ((512:ℚ) ≠ 0) ∧
    (handleResetEdits (some (800, 600))
      { currentDisplayUrl := some ⟨1, 256, 256⟩,
        generatedImageBlobUrl := some ⟨0, 512, 512⟩,
        originalImageDimensions := some (256, 256),
        displayDimensions := (600, 600),
        isCropping := false, cropArea := none,
        isResizing := true, resizeHandle := some (590, 590, 600, 600) }).1.currentDisplayUrl =
      some ⟨0, 512, 512⟩ :=
  ⟨by norm_num,
   (resetEdits_restores_and_idempotent (some (800, 600))
     { currentDisplayUrl := some ⟨1, 256, 256⟩,
       generatedImageBlobUrl := some ⟨0, 512, 512⟩,
       originalImageDimensions := some (256, 256),
       displayDimensions := (600, 600),
       isCropping := false, cropArea := none,
       isResizing := true, resizeHandle := some (590, 590, 600, 600) }
     ⟨0, 512, 512⟩ rfl (by norm_num) (by norm_num)).1⟩

/-- C8 (counterexample): with a configured database and a failed upload
(`uploadImageToBackend` returned `null`, e.g. on a size-limit error),
`handleAddToGallery` does NOT invoke the local-storage fallback path — the
localStorage branch is reached only when the database is not configured, so
the claimed fallback-on-failure does not happen. -/
theorem addToGallery_upload_failure_no_local_fallback :
    (handleAddToGallery true none none [] [] 5).localFallbackInvoked = false ∧
    (handleAddToGallery true (some 9) none [] [] 5).localFallbackInvoked = false := by
  constructor <;> rfl

/-- C8 (amended): when the database is configured and either the upload fails
or the gallery-persistence save returns `null`, no gallery entry is created
(remote or local), a non-fatal error is surfaced, and the local-storage path
is NOT invoked — local storage is used only when no database is configured,
not as a fallback after a remote failure. -/
theorem addToGallery_remote_failure_no_entry (uploadResult saveResult : Option ℕ)
    (gallery localStore : List ℕ) (image : ℕ)
    (hfail : uploadResult = none ∨ saveResult = none) :
    handleAddToGallery true uploadResult saveResult gallery localStore image =
      ⟨gallery, localStore, false, false, true⟩ := by
  unfold handleAddToGallery
  split_ifs with hfull hdb
  · rfl
  · rcases hfail with h | h
    · rw [h]
    · rw [h]
      cases uploadResult <;> rfl
  · exact absurd rfl hdb

/-- Witness for C8 (amended): a failed upload with one existing gallery entry. -/
theorem addToGallery_remote_failure_no_entry_witness :
    ((none : Option ℕ) = none ∨ (some 3 : Option ℕ) = none) ∧
    handleAddToGallery true none (some 3) [7] [8] 5 =
      ⟨[7], [8], false, false, true⟩ :=
  ⟨Or.inl rfl,
   addToGallery_remote_failure_no_entry none (some 3) [7] [8] 5 (Or.inl rfl)⟩

/-- C9 (counterexample): the trace "generation 1 starts, generation 2 starts,
generation 1's webhook completes with image 7" leaves image 7 installed as
the current and original image even though a newer generation (id 2) had
started — the stale completion IS applied, contradicting the claim that it
never is. -/
theorem stale_generation_result_applied :
    (genRun [.startGeneration 1, .startGeneration 2,
             .generationComplete 1 7]).latestGen = 2 ∧
    (genRun [.startGeneration 1, .startGeneration 2,
             .generationComplete 1 7]).current = some 7 ∧
    (genRun [.startGeneration 1, .startGeneration 2,
             .generationComplete 1 7]).original = some 7 := by
  refine ⟨rfl, rfl, rfl⟩

/-- C9 (amended): a generation completion is applied to the session
unconditionally — `handleSubmit`'s continuation consults no generation
counter or token, so whatever the session state (reset, or a newer
generation already started), the completing image becomes both the current
and the original image. -/
theorem generation_completion_applied_unconditionally (s : GenSession)
    (genId image : ℕ) :
    genStep s (.generationComplete genId image) =
      { s with current := some image, original := some image } := rfl

/-- C10: starting from a visible gallery of at most `MAX_GALLERY_IMAGES`
entries, every add path (generated image via `handleAddToGallery`, file via
`handleFileUpload`, remote or local) first rejects the add when the gallery
is full and otherwise truncates the updated lists to the first
`MAX_GALLERY_IMAGES` entries, and `loadGallery` truncates what it reads, so
the visible gallery and the localStorage list never exceed 20 entries. -/
theorem gallery_never_exceeds_max (dbConfigured : Bool)
    (uploadResult saveResult : Option ℕ) (gallery localStore stored : List ℕ)
    (image : ℕ) (hg : gallery.length ≤ MAX_GALLERY_IMAGES)
    (hl : localStore.length ≤ MAX_GALLERY_IMAGES) :
    (handleAddToGallery dbConfigured uploadResult saveResult gallery localStore
        image).gallery.length ≤ MAX_GALLERY_IMAGES ∧
    (handleAddToGallery dbConfigured uploadResult saveResult gallery localStore
        image).localStore.length ≤ MAX_GALLERY_IMAGES ∧
    (MAX_GALLERY_IMAGES ≤ gallery.length →
      (handleAddToGallery dbConfigured uploadResult saveResult gallery localStore
        image).gallery = gallery) ∧
    (handleFileUpload dbConfigured uploadResult saveResult gallery localStore
        image).gallery.length ≤ MAX_GALLERY_IMAGES ∧
    (handleFileUpload dbConfigured uploadResult saveResult gallery localStore
        image).localStore.length ≤ MAX_GALLERY_IMAGES ∧
    (MAX_GALLERY_IMAGES ≤ gallery.length →
      (handleFileUpload dbConfigured uploadResult saveResult gallery localStore
        image).gallery = gallery) ∧
    (loadGallery stored).length ≤ MAX_GALLERY_IMAGES := by
  unfold MAX_GALLERY_IMAGES at hg hl
  refine ⟨?_, ?_, ?_, ?_, ?_, ?_, ?_⟩
  · unfold handleAddToGallery MAX_GALLERY_IMAGES
    split_ifs with h1 h2
    · exact hg
    · cases uploadResult with
      | none => exact hg
      | some u =>
        cases saveResult with
        | none => exact hg
        | some v =>
          simp only [List.length_take, List.length_cons]
          omega
    · simp only [List.length_take, List.length_cons]
      omega
  · unfold handleAddToGallery MAX_GALLERY_IMAGES
    split_ifs with h1 h2
    · exact hl
    · cases uploadResult with
      | none => exact hl
      | some u =>
        cases saveResult with
        | none => exact hl
        | some v => exact hl
    · simp only [List.length_take, List.length_cons]
      omega
  · unfold handleAddToGallery MAX_GALLERY_IMAGES
    split_ifs with h1 h2
    · intro _
      rfl
    · intro hfull
      exact absurd ⟨by norm_num, hfull⟩ h1
    · intro hfull
      exact absurd ⟨by norm_num, hfull⟩ h1
  · unfold handleFileUpload MAX_GALLERY_IMAGES
    split_ifs with h1 h2
    · exact hg
    · cases uploadResult with
      | none => exact hg
      | some u =>
        cases saveResult with
        | none => exact hg
        | some v =>
          simp only [List.length_take, List.length_cons]
          omega
    · simp only [List.length_take, List.length_cons]
      omega
  · unfold handleFileUpload MAX_GALLERY_IMAGES
    split_ifs with h1 h2
    · exact hl
    · cases uploadResult with
      | none => exact hl
      | some u =>
        cases saveResult with
        | none => exact hl
        | some v => exact hl
    · simp only [List.length_take, List.length_cons]
      omega
  · unfold handleFileUpload MAX_GALLERY_IMAGES
    split_ifs with h1 h2
    · intro _
      rfl
    · intro hfull
      exact absurd ⟨by norm_num, hfull⟩ h1
    · intro hfull
      exact absurd ⟨by norm_num, hfull⟩ h1
  · unfold loadGallery MAX_GALLERY_IMAGES
    simp only [List.length_take]
    omega

/-- Witness for C10: adding a local image to a gallery that already holds 20
entries is rejected, and the stored list is truncated on load. -/
theorem gallery_never_exceeds_max_witness :
    (List.replicate 20 (0:ℕ)).length ≤ MAX_GALLERY_IMAGES ∧
    (handleAddToGallery false none none (List.replicate 20 (0:ℕ)) [] 5).gallery =
      List.replicate 20 (0:ℕ) :=
  ⟨by simp [MAX_GALLERY_IMAGES],
   (gallery_never_exceeds_max false none none (List.replicate 20 (0:ℕ)) [] [] 5
     (by simp [MAX_GALLERY_IMAGES]) (by simp [MAX_GALLERY_IMAGES])).2.2.1
     (by simp [MAX_GALLERY_IMAGES])⟩
